import Mathlib

/-!
Verification development for the remote-feedback session engine of the
cunzhi repository.

The embedding follows the two source files:
- `src/rust/telegram/commands.rs`: the polling loop `start_telegram_listener`
  and the session-start command `start_telegram_sync`;
- `src/rust/ui/window.rs`: `update_window_position` and `is_position_valid`.

Collaborators that live outside these files (the bot HTTP transport, the
routing helpers `handle_callback_query` / `handle_text_message`, the
feedback-message builder, the configuration store) are modelled as inputs
or as abstract effects, as noted at each definition.
-/

namespace Cunzhi

/-- The routed result of `handle_callback_query` (enum `CallbackQueryResult`
from `crate::telegram`; the routing function itself is a collaborator outside
the embedded files, so the result is taken as input). -/
inductive CallbackQueryResult where
  | OptionToggled (option : String)
  | EnhancePressed
  | ContinuePressed
  | SendPressed
deriving DecidableEq, Repr

/-- Events emitted to the frontend sink (enum `TelegramEvent` from
`crate::telegram`), with the variants the listener constructs or matches on. -/
inductive TelegramEvent where
  | OptionToggled (option : String) (selected : Bool)
  | EnhancePressed (text : String)
  | ContinuePressed
  | SendPressed
  | TextUpdated (text : String)
deriving DecidableEq, Repr

/-- One inline-keyboard button kind: either callback data or something else
(`teloxide::types::InlineKeyboardButtonKind`). -/
inductive InlineKeyboardButtonKind where
  | CallbackData (data : String)
  | OtherKind
deriving DecidableEq, Repr

/-- An inline keyboard: rows of buttons (`teloxide::types::InlineKeyboardMarkup`). -/
structure InlineKeyboardMarkup where
  inline_keyboard : List (List InlineKeyboardButtonKind)
deriving DecidableEq, Repr

/-- Rust `str::starts_with`: the pattern's characters are a prefix of the
string's characters (executable rendering over the character list). -/
def starts_with (s pat : String) : Bool :=
  pat.data.isPrefixOf s.data

/-- Rust `str::trim().is_empty()`: true exactly when the string has no
non-whitespace character (trimming both ends leaves nothing). -/
def trim_is_empty (s : String) : Bool :=
  s.data.all Char.isWhitespace

/-- The scan at commands.rs lines 417-431: does the attached keyboard contain
a button whose callback data starts with "toggle:"? The Rust nested loop with
early breaks computes exactly this existential. -/
def containsOurOptions (kb : InlineKeyboardMarkup) : Bool :=
  kb.inline_keyboard.any fun row =>
    row.any fun button =>
      match button with
      | InlineKeyboardButtonKind.CallbackData callback_data =>
          starts_with callback_data "toggle:"
      | InlineKeyboardButtonKind.OtherKind => false

/-- A callback-query update as the listener inspects it: the optional message
it is attached to (only its id is read, line 315-318), and the routed result
`handle_callback_query` produced (`Ok(Some(r))` becomes `some r`; `Ok(None)`
and `Err` both take the no-result branch, hence `none`). -/
structure TgCallbackQuery where
  message_id : Option Int
  result : Option CallbackQueryResult
deriving DecidableEq, Repr

/-- A message update as the listener inspects it: its id, its optional reply
markup (line 416), and the event `handle_text_message` produced for it
(`Ok(Some(e))` becomes `some e`; `Ok(None)` and `Err` become `none`; the
routing function is a collaborator outside the embedded files). -/
structure TgMessage where
  id : Int
  reply_markup : Option InlineKeyboardMarkup
  textEvent : Option TelegramEvent
deriving DecidableEq, Repr

/-- `teloxide::types::UpdateKind`, restricted to what the listener matches:
callback queries, messages, and everything else (ignored, line 485-487). -/
inductive UpdateKind where
  | CallbackQuery (cq : TgCallbackQuery)
  | Message (m : TgMessage)
  | OtherUpdate
deriving DecidableEq, Repr

/-- One update from getUpdates: id plus kind. -/
structure Update where
  id : Int
  kind : UpdateKind
deriving DecidableEq, Repr

/-- The listener's mutable session state (commands.rs lines 289-294):
offset, selected options (a HashSet, modelled as a duplicate-free list),
the keyboard-owner message id, and the latest free-text input. -/
structure ListenerState where
  offset : Int
  selected_options : List String
  options_message_id : Option Int
  user_input : String
deriving DecidableEq, Repr

/-- The fresh state at listener start (offset 0, empty selection, no owner,
empty input), before the initial high-water-mark fetch. -/
def initialListenerState : ListenerState :=
  { offset := 0, selected_options := [], options_message_id := none, user_input := "" }

/-- Observable side effects of the loop body: outbound bot calls, events
emitted to the frontend sink, the backoff sleep (5 s, line 492), the
inter-iteration courtesy sleep (1 s, line 497), and warning-level log
diagnostics (the vocabulary includes them so that their absence on the
dispatch paths is a statement about the code, not about the model). -/
inductive Effect where
  | SendMessage (text : String)
  | EditKeyboard (message_id : Int) (options : List String) (selected : List String)
  | EmitEvent (ev : TelegramEvent)
  | BackoffSleep
  | CourtesySleep
  | LogWarn (text : String)
deriving DecidableEq, Repr

/-- Whether an effect is a warning-level log diagnostic. -/
def Effect.isWarnLog : Effect → Bool
  | Effect.LogWarn _ => true
  | _ => false

/-- Whether an effect is an outbound chat message. -/
def Effect.isSendMessage : Effect → Bool
  | Effect.SendMessage _ => true
  | _ => false

/-- The result value of a BotClient call, as seen at the `let _ = ... .await`
sites: the parameter `botFails` says whether the transport call fails. The
listener binds the result to `_`, discarding it. -/
def botCallResult (botFails : Bool) : Except String Unit :=
  if botFails then Except.error "请求失败" else Except.ok ()

/-- Modelled from the spec: `build_feedback_message` lives in
`crate::telegram::core`, which is not among the embedded files. Per spec
section 4.4: with `is_continue` true it is a fixed continue payload ignoring
the other arguments; otherwise it enumerates the selected options and the
free text, with a distinguishable empty-response payload when both are absent. -/
def build_feedback_message (selected : List String) (free_text : String)
    (is_continue : Bool) : String :=
  if is_continue then
    "用户选择继续"
  else if selected.isEmpty && free_text.isEmpty then
    "用户未提供反馈"
  else
    "用户反馈：" ++ String.intercalate "、" selected ++
      (if free_text.isEmpty then "" else "\n" ++ free_text)

/-- The enhance-prompt template (commands.rs lines 364-377): a fixed prefix,
the current user input, and a fixed suffix. The long literal is kept
abstract up to its user-input hole. -/
def enhancePrompt (user_input : String) : String :=
  "Use the following prompt to optimize and enhance the context of the content in 《》, and return the enhanced result by calling the tool 寸止 after completion." ++
    "《" ++ user_input ++ "》"

/-- Flip one label in the selection (commands.rs lines 332-338): if present,
remove it and report `false`; otherwise insert it and report `true`. The
HashSet is modelled as a duplicate-free list, so removal is `List.erase`. -/
def toggleSelection (sel : List String) (option : String) :
    List String × Bool :=
  if sel.contains option then (sel.erase option, false)
  else (option :: sel, true)

/-- Process one callback-query update (commands.rs lines 313-411), after the
offset has been advanced. Returns the new state and the effects in order. -/
def processCallbackQuery (predefined_options : List String) (botFails : Bool)
    (st : ListenerState) (cq : TgCallbackQuery) : ListenerState × List Effect :=
  let has_options := !predefined_options.isEmpty
  let st :=
    match cq.message_id with
    | some mid =>
        if st.options_message_id.isNone && has_options then
          { st with options_message_id := some mid }
        else st
    | none => st
  match cq.result with
  | none => (st, [])
  | some r =>
    match r with
    | CallbackQueryResult.OptionToggled option =>
        if has_options then
          let (sel, selected) := toggleSelection st.selected_options option
          let st := { st with selected_options := sel }
          let effs := [Effect.EmitEvent (TelegramEvent.OptionToggled option selected)]
          match st.options_message_id with
          | some msg_id =>
              let _ := botCallResult botFails
              (st, effs ++ [Effect.EditKeyboard msg_id predefined_options sel])
          | none => (st, effs)
        else (st, [])
    | CallbackQueryResult.EnhancePressed =>
        let _ := botCallResult botFails
        (st, [Effect.SendMessage ("✨ 增强请求已发送\n\n📝 原文：" ++ st.user_input),
              Effect.EmitEvent (TelegramEvent.EnhancePressed (enhancePrompt st.user_input))])
    | CallbackQueryResult.ContinuePressed =>
        let _ := botCallResult botFails
        (st, [Effect.SendMessage (build_feedback_message [] "" true),
              Effect.EmitEvent TelegramEvent.ContinuePressed])
    | CallbackQueryResult.SendPressed =>
        let _ := botCallResult botFails
        (st, [Effect.SendMessage
                (build_feedback_message st.selected_options st.user_input false),
              Effect.EmitEvent TelegramEvent.SendPressed])

/-- Process one message update (commands.rs lines 412-484), after the offset
has been advanced: first the keyboard-owner scan, then the routed text event. -/
def processMessage (predefined_options : List String) (botFails : Bool)
    (st : ListenerState) (m : TgMessage) : ListenerState × List Effect :=
  let has_options := !predefined_options.isEmpty
  let st :=
    if has_options then
      match m.reply_markup with
      | some inline_keyboard =>
          if containsOurOptions inline_keyboard then
            { st with options_message_id := some m.id }
          else st
      | none => st
    else st
  match m.textEvent with
  | none => (st, [])
  | some ev =>
    match ev with
    | TelegramEvent.SendPressed =>
        let _ := botCallResult botFails
        (st, [Effect.SendMessage
                (build_feedback_message st.selected_options st.user_input false),
              Effect.EmitEvent ev])
    | TelegramEvent.ContinuePressed =>
        let _ := botCallResult botFails
        (st, [Effect.SendMessage (build_feedback_message [] "" true),
              Effect.EmitEvent ev])
    | TelegramEvent.TextUpdated text =>
        ({ st with user_input := text }, [Effect.EmitEvent ev])
    | _ =>
        (st, [Effect.EmitEvent ev])

/-- Process one update (loop body, commands.rs lines 309-489): advance the
offset to `update.id + 1` first (line 310), then branch on the kind. -/
def processUpdate (predefined_options : List String) (botFails : Bool)
    (st : ListenerState) (u : Update) : ListenerState × List Effect :=
  let st := { st with offset := u.id + 1 }
  match u.kind with
  | UpdateKind.CallbackQuery cq => processCallbackQuery predefined_options botFails st cq
  | UpdateKind.Message m => processMessage predefined_options botFails st m
  | UpdateKind.OtherUpdate => (st, [])

/-- Process a successful batch in order (the `for update in updates` loop). -/
def processBatch (predefined_options : List String) (botFails : Bool)
    (st : ListenerState) : List Update → ListenerState × List Effect
  | [] => (st, [])
  | u :: rest =>
      let (st1, effs1) := processUpdate predefined_options botFails st u
      let (st2, effs2) := processBatch predefined_options botFails st1 rest
      (st2, effs1 ++ effs2)

/-- The outcome of one `getUpdates(offset, timeout)` long poll, as the loop
matches it: a batch of updates, or a single transport-failure signal. -/
inductive PollResult where
  | ok (batch : List Update)
  | err
deriving DecidableEq, Repr

/-- One iteration of the listener loop (commands.rs lines 306-498): on
success process the batch then take the courtesy sleep; on failure take the
backoff sleep (5 s) and then the courtesy sleep, leaving the state untouched. -/
def pollCycle (predefined_options : List String) (botFails : Bool)
    (st : ListenerState) (r : PollResult) : ListenerState × List Effect :=
  match r with
  | PollResult.ok batch =>
      let (st2, effs) := processBatch predefined_options botFails st batch
      (st2, effs ++ [Effect.CourtesySleep])
  | PollResult.err =>
      (st, [Effect.BackoffSleep, Effect.CourtesySleep])

/-- Run the loop over a finite prefix of poll outcomes. -/
def runCycles (predefined_options : List String) (botFails : Bool)
    (st : ListenerState) : List PollResult → ListenerState × List Effect
  | [] => (st, [])
  | r :: rest =>
      let (st1, effs1) := pollCycle predefined_options botFails st r
      let (st2, effs2) := runCycles predefined_options botFails st1 rest
      (st2, effs1 ++ effs2)

/-- The server side of `getUpdates(offset, ...)`: of all currently pending
updates (in id order), those with id at least `offset` are returned. -/
def getUpdates (pending : List Update) (offset : Int) : List Update :=
  pending.filter fun u => decide (offset ≤ u.id)

/-- The initial high-water-mark fetch (commands.rs lines 298-303):
`get_updates().limit(10)` returns the first at most 10 pending updates; the
offset becomes the last returned id plus one, and stays 0 when the call
fails or returns nothing. -/
def initialOffset (initFetchOk : Bool) (pending : List Update) : Int :=
  if initFetchOk then
    match (pending.take 10).getLast? with
    | some u => u.id + 1
    | none => 0
  else 0

/-- The configuration values `start_telegram_sync` reads at lines 185-196:
the enabled flag, bot token, chat id and continue-reply flag, captured by
value from the mutex-guarded store (a collaborator, modelled as input). -/
structure TelegramStartConfig where
  enabled : Bool
  bot_token : String
  chat_id : String
  continue_reply_enabled : Bool
deriving DecidableEq, Repr

/-- Observable effects of session start: the two outbound messages, the
500 ms ordering delay between them, and spawning the listener task. -/
inductive StartEffect where
  | SendOptionsMessage (message : String) (options : List String) (is_markdown : Bool)
  | SleepHalfSecond
  | SendOperationMessage (continue_reply_enabled : Bool)
  | SpawnListener (options : List String)
deriving DecidableEq, Repr

/-- `start_telegram_sync` (commands.rs lines 177-260): returns `Ok` doing
nothing when telegram is disabled; fails fast on an empty (after trimming)
token or chat id; otherwise sends the options message, sleeps 500 ms, sends
the operation message, and spawns the listener. The two sends are BotClient
calls whose success is an input (`optionsSendOk`, `opSendOk`); a failing
send aborts with an error after the attempt. The returned list holds the
effects performed, in order, alongside the call result. -/
def start_telegram_sync (cfg : TelegramStartConfig) (message : String)
    (predefined_options : List String) (is_markdown : Bool)
    (optionsSendOk opSendOk : Bool) : List StartEffect × Except String Unit :=
  if !cfg.enabled then
    ([], Except.ok ())
  else if trim_is_empty cfg.bot_token || trim_is_empty cfg.chat_id then
    ([], Except.error "Telegram配置不完整")
  else
    let effs1 := [StartEffect.SendOptionsMessage message predefined_options is_markdown]
    if !optionsSendOk then
      (effs1, Except.error "发送选项消息失败")
    else
      let effs2 := effs1 ++ [StartEffect.SleepHalfSecond,
                             StartEffect.SendOperationMessage cfg.continue_reply_enabled]
      if !opSendOk then
        (effs2, Except.error "发送操作消息失败")
      else
        (effs2 ++ [StartEffect.SpawnListener predefined_options], Except.ok ())

/-- The window fields `update_window_position` touches (window.rs): the
persisted position inside the window configuration. -/
structure WindowConfig where
  position_x : Option Int
  position_y : Option Int
deriving DecidableEq, Repr

/-- `WindowPositionUpdate` (window.rs lines 13-17): requested coordinates. -/
structure WindowPositionUpdate where
  x : Int
  y : Int
deriving DecidableEq, Repr

/-- `is_position_valid` (window.rs lines 200-203): both coordinates must lie
in the inclusive range [-10000, 10000]; negative values are allowed. -/
def is_position_valid (x y : Int) : Bool :=
  (-10000 ≤ x && x ≤ 10000) && (-10000 ≤ y && y ≤ 10000)

/-- Observable effect of `update_window_position`: one `save_config` call. -/
inductive WinEffect where
  | SaveConfigCall
deriving DecidableEq, Repr

/-- `update_window_position` (window.rs lines 147-166): reject invalid
coordinates before touching anything; otherwise record the position in the
configuration and call `save_config` (a collaborator whose success is the
input `saveOk`; its failure is propagated as an error after the in-memory
update already happened). Returns the call result, the configuration after
the call, and the effects performed. -/
def update_window_position (cfg : WindowConfig) (p : WindowPositionUpdate)
    (saveOk : Bool) : Except String Unit × WindowConfig × List WinEffect :=
  if !is_position_valid p.x p.y then
    (Except.error "无效的窗口位置", cfg, [])
  else
    let cfg2 := { cfg with position_x := some p.x, position_y := some p.y }
    if saveOk then
      (Except.ok (), cfg2, [WinEffect.SaveConfigCall])
    else
      (Except.error "保存配置失败", cfg2, [WinEffect.SaveConfigCall])

/-! ### Helper lemmas about the loop body -/

/-- The offset a batch leaves behind: last id plus one, or the default. -/
def lastOffset (l : List Update) (d : Int) : Int :=
  match l.getLast? with
  | some u => u.id + 1
  | none => d

theorem lastOffset_cons (u : Update) (rest : List Update) (d : Int) :
    lastOffset (u :: rest) d = lastOffset rest (u.id + 1) := by
  cases rest with
  | nil => rfl
  | cons v vs =>
      rcases h : (v :: vs).getLast? with _ | w
      · exact absurd (List.getLast?_eq_none_iff.mp h) (List.cons_ne_nil v vs)
      · simp [lastOffset, List.getLast?_cons_cons, h]

theorem processBatch_cons (po : List String) (bf : Bool) (st : ListenerState)
    (u : Update) (rest : List Update) :
    processBatch po bf st (u :: rest) =
      ((processBatch po bf (processUpdate po bf st u).1 rest).1,
       (processUpdate po bf st u).2 ++
         (processBatch po bf (processUpdate po bf st u).1 rest).2) := by
  rcases hu : processUpdate po bf st u with ⟨st1, e1⟩
  rcases hb : processBatch po bf st1 rest with ⟨st2, e2⟩
  simp [processBatch, hu, hb]

theorem runCycles_cons (po : List String) (bf : Bool) (st : ListenerState)
    (r : PollResult) (rest : List PollResult) :
    runCycles po bf st (r :: rest) =
      ((runCycles po bf (pollCycle po bf st r).1 rest).1,
       (pollCycle po bf st r).2 ++
         (runCycles po bf (pollCycle po bf st r).1 rest).2) := by
  rcases hc : pollCycle po bf st r with ⟨st1, e1⟩
  rcases hr : runCycles po bf st1 rest with ⟨st2, e2⟩
  simp [runCycles, hc, hr]

theorem offset_processCallbackQuery (po : List String) (bf : Bool)
    (st : ListenerState) (cq : TgCallbackQuery) :
    (processCallbackQuery po bf st cq).1.offset = st.offset := by
  simp only [processCallbackQuery]
  repeat' split
  all_goals rfl

theorem offset_processMessage (po : List String) (bf : Bool)
    (st : ListenerState) (m : TgMessage) :
    (processMessage po bf st m).1.offset = st.offset := by
  simp only [processMessage]
  repeat' split
  all_goals rfl

theorem offset_processUpdate (po : List String) (bf : Bool)
    (st : ListenerState) (u : Update) :
    (processUpdate po bf st u).1.offset = u.id + 1 := by
  rcases u with ⟨i, k⟩
  rcases k with cq | m | _
  · exact offset_processCallbackQuery po bf _ cq
  · exact offset_processMessage po bf _ m
  · rfl

theorem offset_processBatch (po : List String) (bf : Bool) :
    ∀ (l : List Update) (st : ListenerState),
      (processBatch po bf st l).1.offset = lastOffset l st.offset := by
  intro l
  induction l with
  | nil => intro st; rfl
  | cons u rest ih =>
      intro st
      rw [processBatch_cons, lastOffset_cons]
      show (processBatch po bf (processUpdate po bf st u).1 rest).1.offset = _
      rw [ih, offset_processUpdate]

theorem selected_processMessage (po : List String) (bf : Bool)
    (st : ListenerState) (m : TgMessage) :
    (processMessage po bf st m).1.selected_options = st.selected_options := by
  simp only [processMessage]
  repeat' split
  all_goals rfl

theorem input_processCallbackQuery (po : List String) (bf : Bool)
    (st : ListenerState) (cq : TgCallbackQuery) :
    (processCallbackQuery po bf st cq).1.user_input = st.user_input := by
  simp only [processCallbackQuery]
  repeat' split
  all_goals rfl

theorem owner_processCallbackQuery_of_set (po : List String) (bf : Bool)
    (st : ListenerState) (cq : TgCallbackQuery) (k : Int)
    (h : st.options_message_id = some k) :
    (processCallbackQuery po bf st cq).1.options_message_id = some k := by
  simp only [processCallbackQuery]
  repeat' split
  all_goals simp_all

theorem mem_of_getLast?_eq :
    ∀ (l : List Update) (u : Update), l.getLast? = some u → u ∈ l := by
  intro l
  induction l with
  | nil => intro u hu; simp at hu
  | cons a rest ih =>
      intro u hu
      cases rest with
      | nil => simp at hu; simp [hu]
      | cons b bs =>
          rw [List.getLast?_cons_cons] at hu
          exact List.mem_cons_of_mem a (ih u hu)

theorem id_le_of_getLast? :
    ∀ (l : List Update), l.Pairwise (fun a b => a.id ≤ b.id) →
      ∀ u, l.getLast? = some u → ∀ v ∈ l, v.id ≤ u.id := by
  intro l
  induction l with
  | nil => intro _ u hu; simp at hu
  | cons a rest ih =>
      intro hp u hu v hv
      rcases List.pairwise_cons.mp hp with ⟨ha, hrest⟩
      cases rest with
      | nil =>
          simp at hu
          rcases List.mem_singleton.mp hv with rfl
          simp [hu]
      | cons b bs =>
          rw [List.getLast?_cons_cons] at hu
          rcases List.mem_cons.mp hv with rfl | hv2
          · exact le_trans (ha u (mem_of_getLast?_eq _ u hu)) le_rfl
          · exact ih hrest u hu v hv2

theorem processBatch_offset_max (po : List String) (bf : Bool)
    (st : ListenerState) (batch : List Update)
    (hsorted : batch.Pairwise (fun a b => a.id ≤ b.id))
    (hmem : ∀ v ∈ batch, st.offset ≤ v.id) :
    st.offset ≤ (processBatch po bf st batch).1.offset ∧
      (batch ≠ [] →
        ∃ u ∈ batch, (processBatch po bf st batch).1.offset = u.id + 1 ∧
          ∀ v ∈ batch, v.id ≤ u.id) := by
  rw [offset_processBatch]
  cases hlast : batch.getLast? with
  | none =>
      have hnil : batch = [] := List.getLast?_eq_none_iff.mp hlast
      refine ⟨?_, fun hne => absurd hnil hne⟩
      simp [lastOffset, hlast]
  | some u =>
      have humem : u ∈ batch := mem_of_getLast?_eq batch u hlast
      have hmax : ∀ v ∈ batch, v.id ≤ u.id := id_le_of_getLast? batch hsorted u hlast
      constructor
      · have h1 : st.offset ≤ u.id := hmem u humem
        simp only [lastOffset, hlast]
        omega
      · exact fun _ => ⟨u, humem, by simp [lastOffset, hlast], hmax⟩

/-! ### Claim C4: offset monotonicity -/

/-- Claim C4 (confirmed): for any successful poll batch — what `getUpdates`
returns at the current offset, drawn from an id-sorted pending list — the
session offset after processing the batch equals the maximum observed update
id plus one (when the batch is nonempty), and the offset never decreases. -/
theorem offset_monotone_after_poll (po : List String) (bf : Bool)
    (st : ListenerState) (pending : List Update)
    (hsorted : pending.Pairwise (fun a b => a.id ≤ b.id)) :
    st.offset ≤ (processBatch po bf st (getUpdates pending st.offset)).1.offset ∧
      (getUpdates pending st.offset ≠ [] →
        ∃ u ∈ getUpdates pending st.offset,
          (processBatch po bf st (getUpdates pending st.offset)).1.offset = u.id + 1 ∧
            ∀ v ∈ getUpdates pending st.offset, v.id ≤ u.id) := by
  apply processBatch_offset_max
  · exact hsorted.filter _
  · intro v hv
    have hf := List.mem_filter.mp hv
    exact of_decide_eq_true hf.2

/-- Witness for C4 at a concrete sorted pending list. -/
theorem offset_monotone_after_poll_witness :
    initialListenerState.offset ≤
      (processBatch [] false initialListenerState
        (getUpdates [⟨1, UpdateKind.OtherUpdate⟩, ⟨2, UpdateKind.OtherUpdate⟩]
          initialListenerState.offset)).1.offset ∧
      (getUpdates [⟨1, UpdateKind.OtherUpdate⟩, ⟨2, UpdateKind.OtherUpdate⟩]
          initialListenerState.offset ≠ [] →
        ∃ u ∈ getUpdates [⟨1, UpdateKind.OtherUpdate⟩, ⟨2, UpdateKind.OtherUpdate⟩]
            initialListenerState.offset,
          (processBatch [] false initialListenerState
            (getUpdates [⟨1, UpdateKind.OtherUpdate⟩, ⟨2, UpdateKind.OtherUpdate⟩]
              initialListenerState.offset)).1.offset = u.id + 1 ∧
            ∀ v ∈ getUpdates [⟨1, UpdateKind.OtherUpdate⟩, ⟨2, UpdateKind.OtherUpdate⟩]
                initialListenerState.offset, v.id ≤ u.id) :=
  offset_monotone_after_poll [] false initialListenerState
    [⟨1, UpdateKind.OtherUpdate⟩, ⟨2, UpdateKind.OtherUpdate⟩] (by decide)

/-! ### Claim C3: the initial high-water-mark fetch -/

/-- An 11-update backlog, ids 1..11, all of ignorable kind. -/
def backlogEleven : List Update :=
  [⟨1, UpdateKind.OtherUpdate⟩, ⟨2, UpdateKind.OtherUpdate⟩, ⟨3, UpdateKind.OtherUpdate⟩,
   ⟨4, UpdateKind.OtherUpdate⟩, ⟨5, UpdateKind.OtherUpdate⟩, ⟨6, UpdateKind.OtherUpdate⟩,
   ⟨7, UpdateKind.OtherUpdate⟩, ⟨8, UpdateKind.OtherUpdate⟩, ⟨9, UpdateKind.OtherUpdate⟩,
   ⟨10, UpdateKind.OtherUpdate⟩, ⟨11, UpdateKind.OtherUpdate⟩]

/-- Claim C3 counterexample: with 11 pending backlog updates the bounded
(limit 10) initial fetch sets the offset to 11, not to the id of the last
pending update plus one (12), and backlog update 11 is returned by the first
poll of the loop, hence processed. -/
theorem backlog_beyond_page_processed :
    initialOffset true backlogEleven = 11 ∧
      (⟨11, UpdateKind.OtherUpdate⟩ : Update) ∈
        getUpdates backlogEleven (initialOffset true backlogEleven) := by
  decide

/-- Claim C3 (amended): the initial fetch reads at most 10 pending updates
and sets the offset to the last returned id plus one (or leaves 0 when
nothing is returned); when the backlog holds at most 10 updates this is the
high-water mark and the polling loop sees none of the backlog. -/
theorem initial_offset_small_backlog (pending : List Update)
    (hsorted : pending.Pairwise (fun a b => a.id ≤ b.id))
    (hlen : pending.length ≤ 10) :
    getUpdates pending (initialOffset true pending) = [] ∧
      (pending = [] → initialOffset true pending = 0) ∧
      ∀ hne : pending ≠ [],
        initialOffset true pending = (pending.getLast hne).id + 1 := by
  have htake : pending.take 10 = pending := List.take_of_length_le hlen
  refine ⟨?_, ?_, ?_⟩
  · cases hlast : pending.getLast? with
    | none =>
        have hnil : pending = [] := List.getLast?_eq_none_iff.mp hlast
        subst hnil
        rfl
    | some u =>
        have hmax : ∀ v ∈ pending, v.id ≤ u.id :=
          id_le_of_getLast? pending hsorted u hlast
        have hoff : initialOffset true pending = u.id + 1 := by
          simp [initialOffset, htake, hlast]
        rw [hoff]
        apply List.filter_eq_nil_iff.mpr
        intro v hv
        have := hmax v hv
        simp only [decide_eq_true_eq] at *
        omega
  · intro hnil
    subst hnil
    rfl
  · intro hne
    have hlast : pending.getLast? = some (pending.getLast hne) :=
      List.getLast?_eq_getLast_of_ne_nil hne
    simp [initialOffset, htake, hlast]

/-- Witness for the amended C3 at a concrete two-update backlog. -/
theorem initial_offset_small_backlog_witness :
    getUpdates [⟨3, UpdateKind.OtherUpdate⟩, ⟨7, UpdateKind.OtherUpdate⟩]
        (initialOffset true [⟨3, UpdateKind.OtherUpdate⟩, ⟨7, UpdateKind.OtherUpdate⟩]) = [] ∧
      (([⟨3, UpdateKind.OtherUpdate⟩, ⟨7, UpdateKind.OtherUpdate⟩] : List Update) = [] →
        initialOffset true [⟨3, UpdateKind.OtherUpdate⟩, ⟨7, UpdateKind.OtherUpdate⟩] = 0) ∧
      ∀ hne : ([⟨3, UpdateKind.OtherUpdate⟩, ⟨7, UpdateKind.OtherUpdate⟩] : List Update) ≠ [],
        initialOffset true [⟨3, UpdateKind.OtherUpdate⟩, ⟨7, UpdateKind.OtherUpdate⟩] =
          (([⟨3, UpdateKind.OtherUpdate⟩, ⟨7, UpdateKind.OtherUpdate⟩] : List Update).getLast hne).id + 1 :=
  initial_offset_small_backlog
    [⟨3, UpdateKind.OtherUpdate⟩, ⟨7, UpdateKind.OtherUpdate⟩] (by decide) (by decide)

/-! ### Claim C5: backoff on transport failure -/

theorem runCycles_append (po : List String) (bf : Bool) :
    ∀ (l1 : List PollResult) (st : ListenerState) (l2 : List PollResult),
      runCycles po bf st (l1 ++ l2) =
        ((runCycles po bf (runCycles po bf st l1).1 l2).1,
         (runCycles po bf st l1).2 ++
           (runCycles po bf (runCycles po bf st l1).1 l2).2) := by
  intro l1
  induction l1 with
  | nil => intro st l2; simp [runCycles]
  | cons r rs ih =>
      intro st l2
      rw [List.cons_append, runCycles_cons, runCycles_cons, ih]
      simp [runCycles_cons, List.append_assoc]

theorem runCycles_err_replicate (po : List String) (bf : Bool)
    (st : ListenerState) :
    ∀ n : Nat, runCycles po bf st (List.replicate n PollResult.err) =
      (st, (List.replicate n [Effect.BackoffSleep, Effect.CourtesySleep]).flatten) := by
  intro n
  induction n with
  | zero => rfl
  | succ k ih =>
      rw [List.replicate_succ, runCycles_cons]
      have hc : pollCycle po bf st PollResult.err =
          (st, [Effect.BackoffSleep, Effect.CourtesySleep]) := rfl
      rw [hc, ih]
      simp [List.replicate_succ]

theorem count_backoff_replicate :
    ∀ n : Nat,
      ((List.replicate n [Effect.BackoffSleep, Effect.CourtesySleep]).flatten).count
        Effect.BackoffSleep = n := by
  intro n
  induction n with
  | zero => rfl
  | succ k ih =>
      rw [List.replicate_succ]
      simp [List.count_append, List.count_cons, ih]

/-- Claim C5 (confirmed): a run of N consecutive getUpdates failures produces
exactly N backoff sleeps, leaves the whole session state (offset, selection,
keyboard owner, user input) unchanged throughout, and any continuation of the
loop resumes from that same pre-failure state — in particular the next
successful poll is issued with the pre-failure offset. -/
theorem transport_backoff (po : List String) (bf : Bool) (st : ListenerState)
    (n : Nat) (rest : List PollResult) :
    (runCycles po bf st (List.replicate n PollResult.err)).1 = st ∧
      (runCycles po bf st (List.replicate n PollResult.err)).2.count
        Effect.BackoffSleep = n ∧
      runCycles po bf st (List.replicate n PollResult.err ++ rest) =
        ((runCycles po bf st rest).1,
         (runCycles po bf st (List.replicate n PollResult.err)).2 ++
           (runCycles po bf st rest).2) := by
  have he := runCycles_err_replicate po bf st n
  refine ⟨by rw [he], by rw [he]; exact count_backoff_replicate n, ?_⟩
  rw [runCycles_append po bf (List.replicate n PollResult.err) st rest, he]

/-! ### Claim C1: keyboard-owner write policy -/

theorem owner_processMessage_keyboard (po : List String) (bf : Bool)
    (st : ListenerState) (m : TgMessage)
    (hpo : po.isEmpty = false)
    (hkb : m.reply_markup.elim false containsOurOptions = true) :
    (processMessage po bf st m).1.options_message_id = some m.id := by
  rcases m with ⟨mid, rm, te⟩
  rcases rm with _ | kb
  · simp at hkb
  · simp only [Option.elim] at hkb
    simp only [processMessage, hpo, hkb]
    repeat' split
    all_goals simp_all

/-- Claim C1 counterexample: with the keyboard owner already set to message
5, a later plain message (id 7) whose inline keyboard carries a
toggle-pattern callback id reassigns the owner to 7 instead of leaving it. -/
theorem keyboard_owner_reassigned :
    (⟨0, [], some 5, ""⟩ : ListenerState).options_message_id = some 5 ∧
      (processUpdate ["A"] false ⟨0, [], some 5, ""⟩
        ⟨6, UpdateKind.Message
          ⟨7, some ⟨[[InlineKeyboardButtonKind.CallbackData "toggle:A"]]⟩, none⟩⟩).1.options_message_id
        = some 7 := by decide

/-- Claim C1 (amended): the keyboard owner is first-write-wins on the
callback-query path — once set, processing any callback-query update leaves
it unchanged — but a plain message whose inline keyboard contains a
toggle-pattern callback id reassigns it to that message's id whenever the
session has predefined options. -/
theorem keyboard_owner_policy (po : List String) (bf : Bool)
    (st : ListenerState) (uid : Int) (k : Int) :
    (∀ cq : TgCallbackQuery, st.options_message_id = some k →
      (processUpdate po bf st
        ⟨uid, UpdateKind.CallbackQuery cq⟩).1.options_message_id = some k) ∧
    (∀ m : TgMessage, po.isEmpty = false →
      m.reply_markup.elim false containsOurOptions = true →
      (processUpdate po bf st
        ⟨uid, UpdateKind.Message m⟩).1.options_message_id = some m.id) := by
  constructor
  · intro cq hset
    exact owner_processCallbackQuery_of_set po bf _ cq k hset
  · intro m hpo hkb
    exact owner_processMessage_keyboard po bf _ m hpo hkb

/-- Witness for the amended C1 at concrete inputs: a callback query leaves
the owner at 5; a toggle-keyboard message with id 7 sets the owner to 7. -/
theorem keyboard_owner_policy_witness :
    (processUpdate ["A"] false ⟨0, [], some 5, ""⟩
      ⟨6, UpdateKind.CallbackQuery ⟨some 9, none⟩⟩).1.options_message_id = some 5 ∧
    (processUpdate ["A"] false ⟨0, [], some 5, ""⟩
      ⟨6, UpdateKind.Message
        ⟨7, some ⟨[[InlineKeyboardButtonKind.CallbackData "toggle:A"]]⟩, none⟩⟩).1.options_message_id
      = some 7 :=
  ⟨(keyboard_owner_policy ["A"] false ⟨0, [], some 5, ""⟩ 6 5).1 ⟨some 9, none⟩ rfl,
   (keyboard_owner_policy ["A"] false ⟨0, [], some 5, ""⟩ 6 5).2
     ⟨7, some ⟨[[InlineKeyboardButtonKind.CallbackData "toggle:A"]]⟩, none⟩
     (by decide) (by decide)⟩

/-! ### Claims C2 and C7: selection toggling -/

theorem selected_processCallbackQuery_toggle (po : List String) (bf : Bool)
    (st : ListenerState) (mid : Option Int) (option : String)
    (hpo : po.isEmpty = false) :
    (processCallbackQuery po bf st
      ⟨mid, some (CallbackQueryResult.OptionToggled option)⟩).1.selected_options =
      (toggleSelection st.selected_options option).1 := by
  simp only [processCallbackQuery, hpo]
  repeat' split
  all_goals simp_all

theorem effects_processCallbackQuery_toggle (po : List String) (bf : Bool)
    (st : ListenerState) (mid : Option Int) (option : String)
    (hpo : po.isEmpty = false) :
    Effect.EmitEvent
        (TelegramEvent.OptionToggled option (!st.selected_options.contains option)) ∈
      (processCallbackQuery po bf st
        ⟨mid, some (CallbackQueryResult.OptionToggled option)⟩).2 := by
  simp only [processCallbackQuery, hpo]
  repeat' split
  all_goals simp_all [toggleSelection]
  all_goals (by_cases hm : option ∈ st.selected_options <;> simp [hm])

theorem mem_toggleSelection (sel : List String) (option x : String)
    (h : x ∈ (toggleSelection sel option).1) : x ∈ sel ∨ x = option := by
  by_cases hc : option ∈ sel <;> simp [toggleSelection, hc] at h
  · exact Or.inl (List.mem_of_mem_erase h)
  · rcases h with rfl | h2
    · exact Or.inr rfl
    · exact Or.inl h2

/-- The label an update toggles, when it is a routed option-toggle callback. -/
def toggledLabel (u : Update) : Option String :=
  match u.kind with
  | UpdateKind.CallbackQuery cq =>
      match cq.result with
      | some (CallbackQueryResult.OptionToggled option) => some option
      | _ => none
  | _ => none

/-- Claim C2 counterexample: toggling the label "B", which is not among the
predefined options ["A"], inserts "B" into selectedOptions, breaking the
claimed invariant selectedOptions ⊆ predefinedOptions. -/
theorem unknown_label_inserted :
    "B" ∈ (processUpdate ["A"] false initialListenerState
      ⟨1, UpdateKind.CallbackQuery
        ⟨none, some (CallbackQueryResult.OptionToggled "B")⟩⟩).1.selected_options ∧
    "B" ∉ ["A"] := by decide

theorem selected_processCallbackQuery_cases (po : List String) (bf : Bool)
    (st : ListenerState) (cq : TgCallbackQuery) :
    (processCallbackQuery po bf st cq).1.selected_options = st.selected_options ∨
      ∃ option, cq.result = some (CallbackQueryResult.OptionToggled option) ∧
        (processCallbackQuery po bf st cq).1.selected_options =
          (toggleSelection st.selected_options option).1 := by
  rcases cq with ⟨mid, res⟩
  rcases res with _ | r
  · left
    simp only [processCallbackQuery]
    repeat' split
    all_goals rfl
  · rcases r with o | _ | _ | _
    · by_cases hpo : po.isEmpty = true
      · left
        simp only [processCallbackQuery, hpo]
        repeat' split
        all_goals simp_all
      · right
        refine ⟨o, rfl, ?_⟩
        exact selected_processCallbackQuery_toggle po bf st mid o
          (Bool.not_eq_true _ ▸ Bool.of_not_eq_true hpo)
    · left; simp only [processCallbackQuery]; repeat' split; all_goals (try rfl); all_goals (split <;> rfl)
    · left; simp only [processCallbackQuery]; repeat' split; all_goals (try rfl); all_goals (split <;> rfl)
    · left; simp only [processCallbackQuery]; repeat' split; all_goals (try rfl); all_goals (split <;> rfl)

/-- Claim C2 (amended): the invariant selectedOptions ⊆ predefinedOptions
does not hold in general — an OptionToggled callback with a label outside
predefinedOptions does insert the label (whenever options exist and the
label is not yet selected). What does hold: the selection only ever grows by
toggled labels — after any update, every selected label was either already
selected or is that update's toggled label. -/
theorem selected_options_growth (po : List String) (bf : Bool)
    (st : ListenerState) (u : Update) :
    (∀ x ∈ (processUpdate po bf st u).1.selected_options,
        x ∈ st.selected_options ∨ toggledLabel u = some x) ∧
    (∀ label : String, toggledLabel u = some label → po.isEmpty = false →
        label ∉ st.selected_options →
        label ∈ (processUpdate po bf st u).1.selected_options) := by
  rcases u with ⟨i, k⟩
  constructor
  · intro x hx
    rcases k with cq | m | _
    · have hc := selected_processCallbackQuery_cases po bf { st with offset := i + 1 } cq
      rcases hc with hsame | ⟨o, hres, htog⟩
      · left
        have hs : (processUpdate po bf st
            ⟨i, UpdateKind.CallbackQuery cq⟩).1.selected_options =
            st.selected_options := hsame
        rwa [hs] at hx
      · have hs : (processUpdate po bf st
            ⟨i, UpdateKind.CallbackQuery cq⟩).1.selected_options =
            (toggleSelection st.selected_options o).1 := htog
        rw [hs] at hx
        rcases mem_toggleSelection _ o x hx with h1 | rfl
        · exact Or.inl h1
        · right
          simp [toggledLabel, hres]
    · left
      have hs : (processUpdate po bf st
          ⟨i, UpdateKind.Message m⟩).1.selected_options = st.selected_options :=
        selected_processMessage po bf _ m
      rwa [hs] at hx
    · exact Or.inl hx
  · intro label hlab hpo hnot
    rcases k with cq | m | _
    · rcases cq with ⟨mid, res⟩
      simp only [toggledLabel] at hlab
      rcases res with _ | r
      · simp at hlab
      · rcases r with o | _ | _ | _
        · simp at hlab
          subst hlab
          have ht : (processUpdate po bf st ⟨i, UpdateKind.CallbackQuery
              ⟨mid, some (CallbackQueryResult.OptionToggled o)⟩⟩).1.selected_options =
              (toggleSelection st.selected_options o).1 :=
            selected_processCallbackQuery_toggle po bf { st with offset := i + 1 } mid o hpo
          rw [ht]
          simp [toggleSelection, hnot]
        · simp at hlab
        · simp at hlab
        · simp at hlab
    · simp [toggledLabel] at hlab
    · simp [toggledLabel] at hlab

/-- Witness for the amended C2: starting from selection ["C"], toggling the
unknown label "B" inserts it, and every selected label afterwards is either
the old "C" or the toggled "B". -/
theorem selected_options_growth_witness :
    ("B" ∈ (processUpdate ["A"] false ⟨0, ["C"], none, ""⟩
        ⟨1, UpdateKind.CallbackQuery
          ⟨none, some (CallbackQueryResult.OptionToggled "B")⟩⟩).1.selected_options) ∧
    ("C" ∈ (⟨0, ["C"], none, ""⟩ : ListenerState).selected_options ∨
      toggledLabel ⟨1, UpdateKind.CallbackQuery
        ⟨none, some (CallbackQueryResult.OptionToggled "B")⟩⟩ = some "C") :=
  ⟨(selected_options_growth ["A"] false ⟨0, ["C"], none, ""⟩
      ⟨1, UpdateKind.CallbackQuery
        ⟨none, some (CallbackQueryResult.OptionToggled "B")⟩⟩).2 "B"
      (by decide) (by decide) (by decide),
   (selected_options_growth ["A"] false ⟨0, ["C"], none, ""⟩
      ⟨1, UpdateKind.CallbackQuery
        ⟨none, some (CallbackQueryResult.OptionToggled "B")⟩⟩).1 "C" (by decide)⟩

theorem mem_toggleSelection_iff (sel : List String) (option : String)
    (hnd : sel.Nodup) :
    option ∈ (toggleSelection sel option).1 ↔ option ∉ sel := by
  by_cases hc : option ∈ sel <;> simp [toggleSelection, hc, hnd.mem_erase_iff]

/-- Claim C7 (confirmed, over the HashSet representation invariant of a
duplicate-free selection): with predefined options present, processing
OptionToggled(label) flips the membership of label, emits the event
reporting the new membership state, and the resulting selection is exactly
the toggled one. -/
theorem toggle_flip (po : List String) (bf : Bool) (st : ListenerState)
    (uid : Int) (mid : Option Int) (label : String)
    (hpo : po.isEmpty = false) (hnd : st.selected_options.Nodup) :
    ((label ∈ (processUpdate po bf st ⟨uid, UpdateKind.CallbackQuery
        ⟨mid, some (CallbackQueryResult.OptionToggled label)⟩⟩).1.selected_options) ↔
      label ∉ st.selected_options) ∧
    Effect.EmitEvent (TelegramEvent.OptionToggled label
        (!st.selected_options.contains label)) ∈
      (processUpdate po bf st ⟨uid, UpdateKind.CallbackQuery
        ⟨mid, some (CallbackQueryResult.OptionToggled label)⟩⟩).2 ∧
    (processUpdate po bf st ⟨uid, UpdateKind.CallbackQuery
        ⟨mid, some (CallbackQueryResult.OptionToggled label)⟩⟩).1.selected_options =
      (toggleSelection st.selected_options label).1 := by
  have ht : (processUpdate po bf st ⟨uid, UpdateKind.CallbackQuery
      ⟨mid, some (CallbackQueryResult.OptionToggled label)⟩⟩).1.selected_options =
      (toggleSelection st.selected_options label).1 :=
    selected_processCallbackQuery_toggle po bf { st with offset := uid + 1 } mid label hpo
  have he : Effect.EmitEvent (TelegramEvent.OptionToggled label
      (!st.selected_options.contains label)) ∈
      (processUpdate po bf st ⟨uid, UpdateKind.CallbackQuery
        ⟨mid, some (CallbackQueryResult.OptionToggled label)⟩⟩).2 :=
    effects_processCallbackQuery_toggle po bf { st with offset := uid + 1 } mid label hpo
  refine ⟨?_, he, ht⟩
  rw [ht]
  exact mem_toggleSelection_iff st.selected_options label hnd

/-- Witness for C7: the double-toggle scenario from the empty selection —
toggling "A" yields selection ["A"] reported selected, toggling "A" again
from ["A"] flips it back off. -/
theorem toggle_flip_witness :
    (("A" ∈ (processUpdate ["A"] false initialListenerState
        ⟨1, UpdateKind.CallbackQuery
          ⟨none, some (CallbackQueryResult.OptionToggled "A")⟩⟩).1.selected_options) ↔
      "A" ∉ initialListenerState.selected_options) ∧
    ((processUpdate ["A"] false initialListenerState
        ⟨1, UpdateKind.CallbackQuery
          ⟨none, some (CallbackQueryResult.OptionToggled "A")⟩⟩).1.selected_options =
      (toggleSelection initialListenerState.selected_options "A").1) ∧
    (("A" ∈ (processUpdate ["A"] false ⟨2, ["A"], none, ""⟩
        ⟨2, UpdateKind.CallbackQuery
          ⟨none, some (CallbackQueryResult.OptionToggled "A")⟩⟩).1.selected_options) ↔
      "A" ∉ (⟨2, ["A"], none, ""⟩ : ListenerState).selected_options) ∧
    Effect.EmitEvent (TelegramEvent.OptionToggled "A"
        (!(⟨2, ["A"], none, ""⟩ : ListenerState).selected_options.contains "A")) ∈
      (processUpdate ["A"] false ⟨2, ["A"], none, ""⟩
        ⟨2, UpdateKind.CallbackQuery
          ⟨none, some (CallbackQueryResult.OptionToggled "A")⟩⟩).2 :=
  ⟨(toggle_flip ["A"] false initialListenerState 1 none "A" (by decide) (by decide)).1,
   (toggle_flip ["A"] false initialListenerState 1 none "A" (by decide) (by decide)).2.2,
   (toggle_flip ["A"] false ⟨2, ["A"], none, ""⟩ 2 none "A" (by decide) (by decide)).1,
   (toggle_flip ["A"] false ⟨2, ["A"], none, ""⟩ 2 none "A" (by decide) (by decide)).2.1⟩

/-! ### Claim C6: best-effort BotClient dispatch -/

theorem processUpdate_outcome_independent (po : List String)
    (st : ListenerState) (u : Update) (bf1 bf2 : Bool) :
    processUpdate po bf1 st u = processUpdate po bf2 st u := rfl

theorem processBatch_outcome_independent (po : List String)
    (st : ListenerState) (batch : List Update) (bf1 bf2 : Bool) :
    processBatch po bf1 st batch = processBatch po bf2 st batch := by
  induction batch generalizing st with
  | nil => rfl
  | cons u rest ih =>
      rw [processBatch_cons, processBatch_cons,
        processUpdate_outcome_independent po st u bf1 bf2, ih]

theorem no_warnLog_processUpdate (po : List String) (bf : Bool)
    (st : ListenerState) (u : Update) :
    (processUpdate po bf st u).2.any Effect.isWarnLog = false := by
  rcases u with ⟨i, k⟩
  rcases k with cq | m | _
  · simp only [processUpdate, processCallbackQuery]
    repeat' split
    all_goals rfl
  · simp only [processUpdate, processMessage]
    repeat' split
    all_goals rfl
  · rfl

theorem no_warnLog_processBatch (po : List String) (bf : Bool) :
    ∀ (batch : List Update) (st : ListenerState),
      (processBatch po bf st batch).2.any Effect.isWarnLog = false := by
  intro batch
  induction batch with
  | nil => intro st; rfl
  | cons u rest ih =>
      intro st
      rw [processBatch_cons]
      simp [List.any_append, no_warnLog_processUpdate po bf st u, ih]

/-- Claim C6 counterexample: with the keyboard owner known and every
BotClient call failing, dispatching a toggle emits the event and attempts
the keyboard edit but logs no warning-level diagnostic anywhere — the
effects are exactly the two below — while the state mutation stands. -/
theorem failed_call_not_logged :
    (processUpdate ["A"] true ⟨0, [], some 5, ""⟩
      ⟨1, UpdateKind.CallbackQuery
        ⟨none, some (CallbackQueryResult.OptionToggled "A")⟩⟩).2 =
      [Effect.EmitEvent (TelegramEvent.OptionToggled "A" true),
       Effect.EditKeyboard 5 ["A"] ["A"]] ∧
    (processUpdate ["A"] true ⟨0, [], some 5, ""⟩
      ⟨1, UpdateKind.CallbackQuery
        ⟨none, some (CallbackQueryResult.OptionToggled "A")⟩⟩).1.selected_options
      = ["A"] ∧
    (processUpdate ["A"] true ⟨0, [], some 5, ""⟩
      ⟨1, UpdateKind.CallbackQuery
        ⟨none, some (CallbackQueryResult.OptionToggled "A")⟩⟩).2.any
      Effect.isWarnLog = false := by decide

/-- Claim C6 (amended): dispatch BotClient calls are fire-and-forget — their
results are discarded, so processing a batch does not depend on call
outcomes at all (the applied state mutations stand and the loop continues
through the batch identically when calls fail), and no warning-level
diagnostic is emitted on any dispatch path. -/
theorem dispatch_best_effort (po : List String) (st : ListenerState)
    (batch : List Update) (bf1 bf2 : Bool) :
    processBatch po bf1 st batch = processBatch po bf2 st batch ∧
      (processBatch po bf1 st batch).2.any Effect.isWarnLog = false :=
  ⟨processBatch_outcome_independent po st batch bf1 bf2,
   no_warnLog_processBatch po bf1 batch st⟩

/-! ### Claim C9: free-text updates -/

/-- Claim C9 (confirmed): a routed TextUpdated(text) overwrites userInput
wholesale with text (whatever the previous value, empty strings included),
emits the TextUpdated event to the sink, and sends no outbound chat message
for that update. -/
theorem text_updated_overwrites (po : List String) (bf : Bool)
    (st : ListenerState) (uid : Int) (m : TgMessage) (text : String)
    (hev : m.textEvent = some (TelegramEvent.TextUpdated text)) :
    (processUpdate po bf st ⟨uid, UpdateKind.Message m⟩).1.user_input = text ∧
      Effect.EmitEvent (TelegramEvent.TextUpdated text) ∈
        (processUpdate po bf st ⟨uid, UpdateKind.Message m⟩).2 ∧
      (processUpdate po bf st ⟨uid, UpdateKind.Message m⟩).2.any
        Effect.isSendMessage = false := by
  rcases m with ⟨mi, rm, te⟩
  replace hev : te = some (TelegramEvent.TextUpdated text) := hev
  subst hev
  simp only [processUpdate, processMessage]
  exact ⟨by simp, by simp, by simp [Effect.isSendMessage]⟩

/-- Witness for C9: overwriting a previous input "old" with the empty
string, with the event emitted and no outbound message. -/
theorem text_updated_overwrites_witness :
    (processUpdate [] false ⟨3, [], none, "old"⟩
      ⟨4, UpdateKind.Message
        ⟨9, none, some (TelegramEvent.TextUpdated "")⟩⟩).1.user_input = "" ∧
      Effect.EmitEvent (TelegramEvent.TextUpdated "") ∈
        (processUpdate [] false ⟨3, [], none, "old"⟩
          ⟨4, UpdateKind.Message
            ⟨9, none, some (TelegramEvent.TextUpdated "")⟩⟩).2 ∧
      (processUpdate [] false ⟨3, [], none, "old"⟩
        ⟨4, UpdateKind.Message
          ⟨9, none, some (TelegramEvent.TextUpdated "")⟩⟩).2.any
        Effect.isSendMessage = false :=
  text_updated_overwrites [] false ⟨3, [], none, "old"⟩ 4
    ⟨9, none, some (TelegramEvent.TextUpdated "")⟩ "" rfl

/-! ### Claim C8: configuration errors at session start -/

/-- Claim C8 counterexample: with Telegram disabled and an empty bot token,
start_telegram_sync returns Ok (no configuration error is surfaced), so
"missing token implies an error" fails as stated. -/
theorem disabled_start_returns_ok :
    start_telegram_sync ⟨false, "", "123", false⟩ "msg" [] false true true =
      ([], Except.ok ()) := rfl

/-- Claim C8 (amended): when Telegram is enabled, a bot token or chat id
that is empty after trimming makes start_telegram_sync fail fast — the
configuration error is returned before any message is sent and no listener
is spawned (no effects at all); when Telegram is disabled the call returns
Ok having done nothing, even if the token is missing. -/
theorem config_error_fails_fast (cfg : TelegramStartConfig) (message : String)
    (predefined_options : List String) (is_markdown : Bool)
    (optionsSendOk opSendOk : Bool) :
    (cfg.enabled = true →
      (trim_is_empty cfg.bot_token || trim_is_empty cfg.chat_id) = true →
      start_telegram_sync cfg message predefined_options is_markdown
          optionsSendOk opSendOk = ([], Except.error "Telegram配置不完整")) ∧
    (cfg.enabled = false →
      start_telegram_sync cfg message predefined_options is_markdown
          optionsSendOk opSendOk = ([], Except.ok ())) := by
  constructor
  · intro hen hmiss
    simp [start_telegram_sync, hen, hmiss]
  · intro hen
    simp [start_telegram_sync, hen]

/-- Witness for the amended C8: an enabled configuration whose token is all
whitespace errors out with no effects; a disabled one returns Ok. -/
theorem config_error_fails_fast_witness :
    start_telegram_sync ⟨true, "  ", "123", false⟩ "msg" ["A"] false true true =
      ([], Except.error "Telegram配置不完整") ∧
    start_telegram_sync ⟨false, "tok", "123", false⟩ "msg" ["A"] false true true =
      ([], Except.ok ()) :=
  ⟨(config_error_fails_fast ⟨true, "  ", "123", false⟩ "msg" ["A"] false true true).1
      rfl (by decide),
   (config_error_fails_fast ⟨false, "tok", "123", false⟩ "msg" ["A"] false true true).2
      rfl⟩

/-! ### Claim C10: window-position validation -/

/-- Claim C10 counterexample: with in-range coordinates (0,0) but a failing
configuration save, update_window_position still returns an error, and in
this error case the position has already been recorded and a save was
attempted — so both "error iff out of range" and "in the error case the
configuration is unchanged and no save occurs" fail. -/
theorem save_failure_still_errors :
    (update_window_position ⟨none, none⟩ ⟨0, 0⟩ false).1 =
      Except.error "保存配置失败" ∧
    is_position_valid 0 0 = true ∧
    (update_window_position ⟨none, none⟩ ⟨0, 0⟩ false).2.1 =
      ⟨some 0, some 0⟩ ∧
    (update_window_position ⟨none, none⟩ ⟨0, 0⟩ false).2.2 =
      [WinEffect.SaveConfigCall] :=
  ⟨rfl, rfl, rfl, rfl⟩

/-- Claim C10 (amended): out-of-range coordinates (x or y outside
[-10000, 10000]) are rejected with an error, the configuration untouched and
no save attempted; in-range coordinates — negative ones included — are
always recorded and a save is attempted, the call succeeding exactly when
the save does. -/
theorem window_position_validation (cfg : WindowConfig)
    (p : WindowPositionUpdate) (saveOk : Bool) :
    (is_position_valid p.x p.y = false →
      update_window_position cfg p saveOk =
        (Except.error "无效的窗口位置", cfg, [])) ∧
    (is_position_valid p.x p.y = true →
      (update_window_position cfg p saveOk).2.1 =
          { cfg with position_x := some p.x, position_y := some p.y } ∧
        (update_window_position cfg p saveOk).2.2 = [WinEffect.SaveConfigCall] ∧
        ((update_window_position cfg p saveOk).1 = Except.ok () ↔
          saveOk = true)) ∧
    (is_position_valid p.x p.y = true ↔
      (-10000 ≤ p.x ∧ p.x ≤ 10000 ∧ -10000 ≤ p.y ∧ p.y ≤ 10000)) := by
  refine ⟨?_, ?_, ?_⟩
  · intro h
    simp [update_window_position, h]
  · intro h
    cases saveOk <;> simp [update_window_position, h]
  · simp [is_position_valid, and_assoc]

/-- Witness for the amended C10: coordinate 20000 is rejected leaving the
configuration untouched; the negative coordinate -500 is accepted and
recorded with a save performed. -/
theorem window_position_validation_witness :
    update_window_position ⟨some 1, some 2⟩ ⟨20000, 0⟩ true =
      (Except.error "无效的窗口位置", ⟨some 1, some 2⟩, []) ∧
    ((update_window_position ⟨some 1, some 2⟩ ⟨-500, 300⟩ true).2.1 =
        ⟨some (-500), some 300⟩ ∧
      (update_window_position ⟨some 1, some 2⟩ ⟨-500, 300⟩ true).2.2 =
        [WinEffect.SaveConfigCall] ∧
      ((update_window_position ⟨some 1, some 2⟩ ⟨-500, 300⟩ true).1 =
          Except.ok () ↔ true = true)) :=
  ⟨(window_position_validation ⟨some 1, some 2⟩ ⟨20000, 0⟩ true).1 (by decide),
   (window_position_validation ⟨some 1, some 2⟩ ⟨-500, 300⟩ true).2.1 (by decide)⟩

end Cunzhi
